import Mathlib

/-!
Verification development for the census-demographics pipeline.

The embedding models, from the repository's source files:
  * the pandas cell/value semantics needed by the pipeline
    (numeric coercion with NaN, IEEE-style division and multiplication),
  * `CensusDataFetcher.calculate_percentage` and the GEOID assignments of
    `src/census_fetch.py`,
  * `CensusMapVisualizer.load_geometries` (level validation, URL selection and
    GEOID assignment) and `CensusMapVisualizer.merge_data` (pandas left merge)
    of `src/map_visualize.py`,
  * the `VARIABLES` catalog and `get_variables_for_category` of
    `src/census_fetch.py`,
  * the area-unit conversion of `src/create_state_density_map.py`,
  * the cleaning portion of `fetch_income_data` of
    `src/census_output/island_county_income_tracts_map.py`.

Dataframes are modelled as a column list plus rows of association lists from
column names to cells.  A cell is either text or a float-like value; the
float-like values form an extended type with NaN and signed infinities so that
numpy/pandas division-by-zero behaviour is represented exactly (on the
rational subset the pipeline exercises, where the operations are exact).
-/

namespace Census

/-- Float-like value of a pandas numeric column: a rational value, a signed
infinity, or NaN (the missing-value marker). -/
inductive PFloat where
  | nan : PFloat
  | inf (pos : Bool) : PFloat
  | val (q : ℚ) : PFloat
deriving DecidableEq

/-- A dataframe cell: a float-like value (possibly NaN, i.e. missing) or text. -/
inductive Cell where
  | fl (x : PFloat) : Cell
  | text (s : String) : Cell
deriving DecidableEq

/-- The missing-value cell (a float NaN, as pandas stores missing data). -/
def Cell.na : Cell := Cell.fl PFloat.nan

/-- A dataframe row: association list from column names to cells. -/
abbrev Row := List (String × Cell)

/-- A dataframe: a list of column names and a list of rows. -/
structure DF where
  cols : List String
  rows : List Row
deriving DecidableEq

/-- Value of a decimal digit character. -/
def digitVal (c : Char) : Option Nat :=
  if c.isDigit then some (c.toNat - 48) else none

/-- Parse a nonempty all-digit character list as a natural number. -/
def parseDigits (cs : List Char) : Option Nat :=
  if cs.isEmpty then none
  else cs.foldl (fun acc c => acc.bind (fun n => (digitVal c).map (fun d => n * 10 + d))) (some 0)

/-- Parse an unsigned decimal string (`"123"` or `"123.45"`) as a rational. -/
def parseUnsigned (cs : List Char) : Option ℚ :=
  let ip := cs.takeWhile (fun c => c != '.')
  let rest := cs.dropWhile (fun c => c != '.')
  match rest with
  | [] => (parseDigits ip).map (fun n => (n : ℚ))
  | _ :: frac =>
      (parseDigits ip).bind (fun i =>
        (parseDigits frac).map (fun f => (i : ℚ) + (f : ℚ) / ((10 : ℚ) ^ frac.length)))

/-- Parse an optionally negated decimal string as a rational.  This models the
string-to-number conversion performed by `pd.to_numeric` on the plain decimal
strings the census API emits; any other text fails (and coerces to NaN). -/
def parseNumericString (s : String) : Option ℚ :=
  match s.toList with
  | [] => none
  | '-' :: rest => (parseUnsigned rest).map (fun q => -q)
  | cs => parseUnsigned cs

/-- Models `pd.to_numeric(x, errors='coerce')` on a single cell: numeric cells
pass through, text parses or coerces to NaN. -/
def toNumericCoerce : Cell → PFloat
  | Cell.fl x => x
  | Cell.text s =>
      match parseNumericString s with
      | some q => PFloat.val q
      | none => PFloat.nan

/-- IEEE-style division as performed by numpy/pandas on float columns:
NaN propagates; a nonzero value divided by zero is a signed infinity;
zero divided by zero is NaN. -/
def PFloat.div : PFloat → PFloat → PFloat
  | PFloat.nan, _ => PFloat.nan
  | PFloat.inf _, PFloat.nan => PFloat.nan
  | PFloat.inf _, PFloat.inf _ => PFloat.nan
  | PFloat.inf p, PFloat.val b => if b < 0 then PFloat.inf (!p) else PFloat.inf p
  | PFloat.val _, PFloat.nan => PFloat.nan
  | PFloat.val _, PFloat.inf _ => PFloat.val 0
  | PFloat.val a, PFloat.val b =>
      if b = 0 then (if a = 0 then PFloat.nan else PFloat.inf (decide (0 < a)))
      else PFloat.val (a / b)

/-- IEEE-style multiplication as performed by numpy/pandas on float columns:
NaN propagates; infinity times zero is NaN; signs multiply. -/
def PFloat.mul : PFloat → PFloat → PFloat
  | PFloat.nan, _ => PFloat.nan
  | PFloat.inf _, PFloat.nan => PFloat.nan
  | PFloat.inf p, PFloat.inf q => PFloat.inf (p == q)
  | PFloat.inf p, PFloat.val b => if b = 0 then PFloat.nan else PFloat.inf (p == decide (0 < b))
  | PFloat.val _, PFloat.nan => PFloat.nan
  | PFloat.val a, PFloat.inf q => if a = 0 then PFloat.nan else PFloat.inf (q == decide (0 < a))
  | PFloat.val a, PFloat.val b => PFloat.val (a * b)

/-- Read a cell from a row; an absent column reads as missing (in pandas all
rows of a frame share the frame's columns, so the default is never exercised
on well-formed frames). -/
def getCellD (r : Row) (c : String) : Cell := (r.lookup c).getD Cell.na

/-- Models pandas column assignment `df[c] = v` at the level of one row:
overwrite an existing column in place, otherwise append the new column at the
end. -/
def setCol (r : Row) (c : String) (v : Cell) : Row :=
  if r.any (fun p => p.1 == c) then r.map (fun p => if p.1 == c then (c, v) else p)
  else r ++ [(c, v)]

/-- Per-row body of `CensusDataFetcher.calculate_percentage`
(src/census_fetch.py): store
`to_numeric(df[numerator_col]) / to_numeric(df[denominator_col]) * 100`
under `result_col`. -/
def percentRow (numc denc resc : String) (r : Row) : Row :=
  setCol r resc
    (Cell.fl (((toNumericCoerce (getCellD r numc)).div
      (toNumericCoerce (getCellD r denc))).mul (PFloat.val 100)))

/-- Models `CensusDataFetcher.calculate_percentage` (src/census_fetch.py,
lines 199-222): the dataframe gains the result column, each row carrying the
coerced ratio times 100. -/
def calculate_percentage (df : DF) (numc denc resc : String) : DF :=
  { cols := if resc ∈ df.cols then df.cols else df.cols ++ [resc]
    rows := df.rows.map (percentRow numc denc resc) }

/-- Supported geography levels. -/
inductive GeoLevel where
  | state : GeoLevel
  | county : GeoLevel
  | tract : GeoLevel
deriving DecidableEq

/-- GEOID assignment of the metric-fetching path (src/census_fetch.py):
`df['GEOID'] = df['state']` / `df['state'] + df['county']` /
`df['state'] + df['county'] + df['tract']` in `fetch_state_data`,
`fetch_county_data`, `fetch_tract_data`. -/
def geoid_fetch : GeoLevel → String → String → String → String
  | GeoLevel.state, s, _, _ => s
  | GeoLevel.county, s, c, _ => s ++ c
  | GeoLevel.tract, s, c, t => s ++ c ++ t

/-- GEOID assignment of the geometry-loading path (src/map_visualize.py,
`load_geometries`): `gdf['GEOID'] = gdf['STATEFP']` /
`gdf['STATEFP'] + gdf['COUNTYFP']` /
`gdf['STATEFP'] + gdf['COUNTYFP'] + gdf['TRACTCE']`. -/
def geoid_shape : GeoLevel → String → String → String → String
  | GeoLevel.state, s, _, _ => s
  | GeoLevel.county, s, c, _ => s ++ c
  | GeoLevel.tract, s, c, t => s ++ c ++ t

/-- Whether a cell is pandas-missing (a float NaN). -/
def isNA : Cell → Bool
  | Cell.fl PFloat.nan => true
  | _ => false

/-- Join-key comparison of a pandas merge: two keys match when they are equal
and neither is missing (NaN never matches NaN in a pandas merge). -/
def cellMatch (a b : Cell) : Bool := !isNA a && !isNA b && decide (a = b)

/-- Number of metric rows whose join key matches the geometry row `gr`. -/
def numMatches (d : DF) (key : String) (gr : Row) : Nat :=
  (d.rows.filter (fun dr => cellMatch (getCellD dr key) (getCellD gr key))).length

/-- One geometry row's contribution to a pandas left merge: one output row per
matching metric row, carrying the metric table's non-key columns; if nothing
matches, a single output row with those columns missing. -/
def mergeRow (d : DF) (key : String) (gr : Row) : List Row :=
  let ms := d.rows.filter (fun dr => cellMatch (getCellD dr key) (getCellD gr key))
  let dcols := d.cols.filter (fun c => c != key)
  if ms.isEmpty then [gr ++ dcols.map (fun c => (c, Cell.na))]
  else ms.map (fun dr => gr ++ dcols.map (fun c => (c, getCellD dr c)))

/-- Left-merge of all geometry rows, in geometry order. -/
def mergeRows (d : DF) (key : String) : List Row → List Row
  | [] => []
  | gr :: rest => mergeRow d key gr ++ mergeRows d key rest

/-- Models `CensusMapVisualizer.merge_data` (src/map_visualize.py, lines
84-103): `geometries.merge(data, on=key, how='left')`, the geometry table on
the left.  Non-key metric columns are assumed disjoint from geometry columns,
as they are everywhere in the pipeline. -/
def merge_data (g d : DF) (key : String) : DF :=
  { cols := g.cols ++ d.cols.filter (fun c => c != key)
    rows := mergeRows d key g.rows }

/-- The `VARIABLES` catalog of `CensusDataFetcher` (src/census_fetch.py),
insertion order preserved. -/
def VARIABLES : List (String × List (String × String)) :=
  [ ("population",
      [ ("total", "B01003_001E"), ("density", "B01003_001E") ]),
    ("age",
      [ ("median", "B01002_001E"), ("total", "B01001_001E"),
        ("under_18", "B01001_003E"), ("over_65", "B01001_020E") ]),
    ("race",
      [ ("white", "B02001_002E"), ("black", "B02001_003E"),
        ("native", "B02001_004E"), ("asian", "B02001_005E"),
        ("pacific", "B02001_006E"), ("other", "B02001_007E"),
        ("two_or_more", "B02001_008E"), ("hispanic", "B03003_003E") ]),
    ("education",
      [ ("total_25_over", "B15003_001E"), ("high_school", "B15003_017E"),
        ("some_college", "B15003_019E"), ("associates", "B15003_021E"),
        ("bachelors", "B15003_022E"), ("masters", "B15003_023E"),
        ("professional", "B15003_024E"), ("doctorate", "B15003_025E") ]),
    ("income",
      [ ("median_household", "B19013_001E"), ("per_capita", "B19301_001E"),
        ("mean_household", "B19025_001E") ]),
    ("housing",
      [ ("total_units", "B25001_001E"), ("median_value", "B25077_001E"),
        ("median_rent", "B25064_001E"), ("owner_occupied", "B25003_002E"),
        ("renter_occupied", "B25003_003E") ]),
    ("employment",
      [ ("in_labor_force", "B23025_002E"), ("employed", "B23025_004E"),
        ("unemployed", "B23025_005E") ]) ]

/-- `', '.join(self.VARIABLES.keys())` of `get_variables_for_category`. -/
def availableCategories : String :=
  String.intercalate ", " (VARIABLES.map Prod.fst)

/-- The `ValueError` message raised for an unknown category. -/
def unknownCategoryMsg (category : String) : String :=
  "Unknown category \x27" ++ category ++ "\x27. Available: " ++ availableCategories

/-- Models `CensusDataFetcher.get_variables_for_category`
(src/census_fetch.py, lines 87-106): unknown categories raise a `ValueError`
listing the available categories, known categories return the catalog's
(name, code) pairs. -/
def get_variables_for_category (category : String) :
    Except String (List (String × String)) :=
  match VARIABLES.lookup category with
  | none => Except.error (unknownCategoryMsg category)
  | some l => Except.ok l

/-- Caller-misuse failures of `CensusMapVisualizer.load_geometries`, raised
before any network request: in the source both are `ValueError`s
("State FIPS required for tract-level geometries" / "Unknown level: ..."),
named here after the spec's error taxonomy. -/
inductive LoadError where
  | missingParent : LoadError
  | unsupportedLevel (level : String) : LoadError
deriving DecidableEq

/-- Python truthiness of the optional `state` argument: `None` and the empty
string are falsy. -/
def stateFalsy : Option String → Bool
  | none => true
  | some s => s == ""

/-- Models the validation-and-URL-selection part of
`CensusMapVisualizer.load_geometries` (src/map_visualize.py, lines 59-71):
everything up to the network call `gpd.read_file(url)`.  For valid inputs it
returns the URL the network layer would fetch; the failures occur without a
URL ever being produced. -/
def load_geometries_url (level : String) (state : Option String) (year : Nat) :
    Except LoadError String :=
  let base := "https://www2.census.gov/geo/tiger/TIGER" ++ toString year
  if level == "state" then
    Except.ok (base ++ "/STATE/tl_" ++ toString year ++ "_us_state.zip")
  else if level == "county" then
    Except.ok (base ++ "/COUNTY/tl_" ++ toString year ++ "_us_county.zip")
  else if level == "tract" then
    if stateFalsy state then Except.error LoadError.missingParent
    else
      Except.ok (base ++ "/TRACT/tl_" ++ toString year ++ "_" ++ state.getD ""
        ++ "_tract.zip")
  else Except.error (LoadError.unsupportedLevel level)

/-- The fixed conversion constant of src/create_state_density_map.py:
2,589,988.110336 square meters per square mile. -/
def sqMetersPerSqMile : ℚ := 2589988110336 / 1000000

/-- Models `merged_albers.geometry.area / 2589988.110336`
(src/create_state_density_map.py, lines 54-55): planar area in square meters
divided by the fixed constant.  On this input the float computation is exact,
so the rational model coincides with it. -/
def area_sq_mi (areaSqMeters : ℚ) : ℚ := areaSqMeters / sqMetersPerSqMile

/-- The ACS suppression sentinel the provider uses for unavailable data. -/
def suppressionSentinel : ℚ := -666666666

/-- String concatenation of two text cells, as pandas `+` on string columns;
other combinations are not exercised by the pipeline. -/
def cellAppend : Cell → Cell → Cell
  | Cell.text a, Cell.text b => Cell.text (a ++ b)
  | _, _ => Cell.na

/-- Column-derivation steps of `fetch_income_data`
(src/census_output/island_county_income_tracts_map.py), in source order:
`tract_name`, `median_income` (numeric coercion of `B19013_001E`),
`tract_fips`, `county_fips`, `state_fips`, `full_fips`
(string concatenation `state + county + tract`). -/
def addIncomeCols (r : Row) : Row :=
  let r1 := setCol r "tract_name" (getCellD r "NAME")
  let r2 := setCol r1 "median_income"
    (Cell.fl (toNumericCoerce (getCellD r "B19013_001E")))
  let r3 := setCol r2 "tract_fips" (getCellD r "tract")
  let r4 := setCol r3 "county_fips" (getCellD r "county")
  let r5 := setCol r4 "state_fips" (getCellD r "state")
  setCol r5 "full_fips" (cellAppend (cellAppend (getCellD r "state")
    (getCellD r "county")) (getCellD r "tract"))

/-- `df.dropna(subset=['median_income'])`. -/
def dropnaIncome (rows : List Row) : List Row :=
  rows.filter (fun r => !isNA (getCellD r "median_income"))

/-- Pandas `cell > 0` on a float column: false for NaN, sign for infinity. -/
def cellPos : Cell → Bool
  | Cell.fl (PFloat.val q) => decide (0 < q)
  | Cell.fl (PFloat.inf p) => p
  | _ => false

/-- `df[df['median_income'] > 0]`. -/
def filterPositive (rows : List Row) : List Row :=
  rows.filter (fun r => cellPos (getCellD r "median_income"))

/-- The final column selection
`df[['tract_name', 'median_income', 'full_fips', 'tract_fips', 'county_fips',
'state_fips']]` of `fetch_income_data`. -/
def selectIncomeCols (r : Row) : Row :=
  [ ("tract_name", getCellD r "tract_name"),
    ("median_income", getCellD r "median_income"),
    ("full_fips", getCellD r "full_fips"),
    ("tract_fips", getCellD r "tract_fips"),
    ("county_fips", getCellD r "county_fips"),
    ("state_fips", getCellD r "state_fips") ]

/-- Models the cleaning portion of `fetch_income_data`
(src/census_output/island_county_income_tracts_map.py, lines 44-54): derive
the columns, drop rows whose `median_income` coerced to NaN, keep rows with
`median_income > 0`, then select the output columns. -/
def fetch_income_data_clean (rows : List Row) : List Row :=
  (filterPositive (dropnaIncome (rows.map addIncomeCols))).map selectIncomeCols

/-! ### Association-list lemmas -/

theorem lookup_cons_ite {β : Type} (a : String) (p : String × β) (es : List (String × β)) :
    List.lookup a (p :: es) = (if a == p.1 then some p.2 else List.lookup a es) := by
  obtain ⟨k, b⟩ := p
  rw [List.lookup_cons]
  cases h : a == k <;> simp [h]

theorem lookup_setCol_self (r : Row) (c : String) (v : Cell) :
    (setCol r c v).lookup c = some v := by
  unfold setCol
  by_cases h : r.any (fun p => p.1 == c)
  · rw [if_pos h]
    induction r with
    | nil => simp at h
    | cons a as ih =>
      by_cases ha : (a.1 == c) = true
      · simp only [List.map_cons, if_pos ha]
        rw [lookup_cons_ite]
        simp
      · have h' : as.any (fun p => p.1 == c) = true := by
          simp only [List.any_cons, ha, Bool.false_or] at h
          exact h
        have hca : (c == a.1) = false := by
          simp only [beq_eq_false_iff_ne, ne_eq]
          intro hc
          exact ha (by simp [hc])
        simp only [List.map_cons, if_neg ha]
        rw [lookup_cons_ite]
        simp only [hca, Bool.false_eq_true, if_false]
        exact ih h'
  · rw [if_neg h]
    induction r with
    | nil => simp [List.lookup]
    | cons a as ih =>
      simp only [List.any_cons, Bool.or_eq_true, not_or] at h
      have hca : (c == a.1) = false := by
        simp only [beq_eq_false_iff_ne, ne_eq]
        intro hc
        exact h.1 (by simp [hc])
      rw [List.cons_append, lookup_cons_ite]
      simp only [hca, Bool.false_eq_true, if_false]
      exact ih (by simpa using h.2)

theorem lookup_setCol_ne (r : Row) (c c' : String) (v : Cell) (h : c' ≠ c) :
    (setCol r c v).lookup c' = r.lookup c' := by
  have h1 : (c' == c) = false := by simpa [beq_eq_false_iff_ne] using h
  unfold setCol
  by_cases hany : r.any (fun p => p.1 == c)
  · rw [if_pos hany]
    clear hany
    induction r with
    | nil => rfl
    | cons a as ih =>
      by_cases ha : (a.1 == c) = true
      · have hac : a.1 = c := by simpa using ha
        simp only [List.map_cons, if_pos ha]
        rw [lookup_cons_ite, lookup_cons_ite]
        simp only [h1, hac, Bool.false_eq_true, if_false]
        exact ih
      · simp only [List.map_cons, if_neg ha]
        rw [lookup_cons_ite, lookup_cons_ite]
        cases hc : (c' == a.1) with
        | true => simp only [hc, if_true]
        | false => simp only [hc, Bool.false_eq_true, if_false]; exact ih
  · rw [if_neg hany]
    clear hany
    induction r with
    | nil =>
      rw [List.nil_append, lookup_cons_ite]
      simp [h1, List.lookup]
    | cons a as ih =>
      rw [List.cons_append, lookup_cons_ite, lookup_cons_ite]
      cases hc : (c' == a.1) with
      | true => simp only [hc, if_true]
      | false => simp only [hc, Bool.false_eq_true, if_false]; exact ih

theorem getCellD_setCol_self (r : Row) (c : String) (v : Cell) :
    getCellD (setCol r c v) c = v := by
  unfold getCellD
  rw [lookup_setCol_self]
  rfl

theorem keys_setCol (r : Row) (c : String) (v : Cell) :
    (setCol r c v).map Prod.fst =
      (if c ∈ r.map Prod.fst then r.map Prod.fst else r.map Prod.fst ++ [c]) := by
  unfold setCol
  by_cases h : r.any (fun p => p.1 == c)
  · have hmem : c ∈ r.map Prod.fst := by
      simp only [List.any_eq_true, beq_iff_eq] at h
      obtain ⟨p, hp, hpe⟩ := h
      exact hpe ▸ List.mem_map_of_mem Prod.fst hp
    rw [if_pos h, if_pos hmem, List.map_map]
    apply List.map_congr_left
    intro p _
    by_cases hp : (p.1 == c) = true
    · have : p.1 = c := by simpa using hp
      simp [Function.comp, hp, this]
    · simp [Function.comp, hp]
  · have hmem : c ∉ r.map Prod.fst := by
      intro hc
      obtain ⟨p, hp, hpe⟩ := List.mem_map.mp hc
      exact h (List.any_eq_true.mpr ⟨p, hp, by simp [hpe]⟩)
    rw [if_neg h, if_neg hmem, List.map_append]
    rfl

theorem lookup_eq_none_of_not_mem_keys {β : Type} (l : List (String × β)) (a : String)
    (h : a ∉ l.map Prod.fst) : l.lookup a = none := by
  induction l with
  | nil => rfl
  | cons p rest ih =>
    simp only [List.map_cons, List.mem_cons, not_or] at h
    rw [lookup_cons_ite]
    have hb : (a == p.1) = false := by simpa [beq_eq_false_iff_ne] using h.1
    simp only [hb, Bool.false_eq_true, if_false]
    exact ih h.2

theorem lookup_isSome_of_mem_keys {β : Type} (l : List (String × β)) (a : String)
    (h : a ∈ l.map Prod.fst) : ∃ b, l.lookup a = some b := by
  induction l with
  | nil => simp at h
  | cons p rest ih =>
    rw [lookup_cons_ite]
    by_cases ha : (a == p.1) = true
    · simp [ha]
    · simp only [ha, Bool.false_eq_true, if_false]
      apply ih
      simp only [List.map_cons, List.mem_cons] at h
      rcases h with h | h
      · exact absurd (by simp [h]) ha
      · exact h

/-! ### C1: the two GEOID construction paths agree -/

/-- Claim C1: for every supported geography level and all component FIPS code
strings, the GEOID computed by the metric-fetching path (census_fetch.py) and
by the geometry-loading path (map_visualize.py) are byte-identical strings. -/
theorem geoid_paths_agree (lvl : GeoLevel) (s c t : String) :
    geoid_fetch lvl s c t = geoid_shape lvl s c t := by
  cases lvl <;> rfl

/-! ### C8: area-unit conversion -/

/-- Claim C8: the area-unit conversion divides a planar area in square meters
by the fixed constant 2,589,988.110336, and a polygon of exactly that area
converts to exactly 1 square mile. -/
theorem area_conversion_exact :
    (∀ a : ℚ, area_sq_mi a = a / sqMetersPerSqMile) ∧
    area_sq_mi sqMetersPerSqMile = 1 := by
  refine ⟨fun a => rfl, ?_⟩
  unfold area_sq_mi sqMetersPerSqMile
  norm_num

/-! ### C7: load_geometries validation -/

/-- Claim C7: `load_geometries` fails with the missing-parent error whenever
the level is tract and no (truthy) parent state filter is supplied, fails with
the unsupported-level error for every level outside state/county/tract, and
for valid inputs produces a URL without error.  Both failures occur in the
validation phase modelled here, which precedes the network call in the
source. -/
theorem load_geometries_spec (level : String) (state : Option String) (year : Nat) :
    (level = "tract" → stateFalsy state = true →
      load_geometries_url level state year = Except.error LoadError.missingParent) ∧
    (level ∉ (["state", "county", "tract"] : List String) →
      load_geometries_url level state year =
        Except.error (LoadError.unsupportedLevel level)) ∧
    (level = "state" ∨ level = "county" →
      ∃ u, load_geometries_url level state year = Except.ok u) ∧
    (level = "tract" → stateFalsy state = false →
      ∃ u, load_geometries_url level state year = Except.ok u) := by
  refine ⟨?_, ?_, ?_, ?_⟩
  · rintro rfl h
    simp [load_geometries_url, h]
  · intro h
    simp only [List.mem_cons, List.not_mem_nil, or_false, not_or] at h
    obtain ⟨h1, h2, h3⟩ := h
    have b1 : (level == "state") = false := by simpa [beq_eq_false_iff_ne] using h1
    have b2 : (level == "county") = false := by simpa [beq_eq_false_iff_ne] using h2
    have b3 : (level == "tract") = false := by simpa [beq_eq_false_iff_ne] using h3
    simp [load_geometries_url, b1, b2, b3]
  · rintro (rfl | rfl) <;> exact ⟨_, rfl⟩
  · rintro rfl h
    simp only [load_geometries_url, h]
    exact ⟨_, rfl⟩

/-- Witness for C7 at a concrete input: tract level with no state filter. -/
theorem load_geometries_spec_witness :
    load_geometries_url "tract" none 2021 = Except.error LoadError.missingParent :=
  (load_geometries_spec "tract" none 2021).1 rfl rfl

/-! ### C2: calculate_percentage value semantics -/

/-- Counterexample to claim C2 as stated: a numerator of 50 over a denominator
of 0 yields positive infinity (as numpy/pandas float division does), not a
missing value. -/
theorem calculate_percentage_zero_denominator_infinite :
    calculate_percentage
      { cols := ["n", "d"],
        rows := [[("n", Cell.fl (PFloat.val 50)), ("d", Cell.fl (PFloat.val 0))]] }
      "n" "d" "r" =
      { cols := ["n", "d", "r"],
        rows := [[("n", Cell.fl (PFloat.val 50)), ("d", Cell.fl (PFloat.val 0)),
          ("r", Cell.fl (PFloat.inf true))]] } ∧
    Cell.fl (PFloat.inf true) ≠ Cell.na := by
  constructor
  · rfl
  · decide

/-- Claim C2 as amended: for every row, a failed numeric conversion of either
operand yields a missing result; a zero denominator yields a missing result
only when the numerator is also zero, and otherwise a signed infinity; a
nonzero denominator yields numerator/denominator times 100. -/
theorem calculate_percentage_row_semantics (df : DF) (numc denc resc : String)
    (r : Row) (hr : r ∈ df.rows) :
    percentRow numc denc resc r ∈ (calculate_percentage df numc denc resc).rows ∧
    ((toNumericCoerce (getCellD r numc) = PFloat.nan ∨
        toNumericCoerce (getCellD r denc) = PFloat.nan) →
      getCellD (percentRow numc denc resc r) resc = Cell.na) ∧
    (∀ x : ℚ, toNumericCoerce (getCellD r numc) = PFloat.val x →
        toNumericCoerce (getCellD r denc) = PFloat.val 0 →
      getCellD (percentRow numc denc resc r) resc =
        (if x = 0 then Cell.na else Cell.fl (PFloat.inf (decide (0 < x))))) ∧
    (∀ x y : ℚ, toNumericCoerce (getCellD r numc) = PFloat.val x →
        toNumericCoerce (getCellD r denc) = PFloat.val y → y ≠ 0 →
      getCellD (percentRow numc denc resc r) resc =
        Cell.fl (PFloat.val (x / y * 100))) := by
  refine ⟨List.mem_map_of_mem _ hr, ?_, ?_, ?_⟩
  · intro h
    unfold percentRow
    rw [getCellD_setCol_self]
    rcases h with h | h
    · rw [h]
      simp [PFloat.div, PFloat.mul, Cell.na]
    · rw [h]
      cases toNumericCoerce (getCellD r numc) <;> simp [PFloat.div, PFloat.mul, Cell.na]
  · intro x hx hy
    unfold percentRow
    rw [getCellD_setCol_self, hx, hy]
    by_cases h0 : x = 0
    · simp [PFloat.div, PFloat.mul, h0, Cell.na]
    · simp only [PFloat.div, if_pos rfl, if_neg h0, if_neg h0]
      cases hb : decide (0 < x) <;> simp [PFloat.mul, hb, h0, Cell.na]
  · intro x y hx hy hy0
    unfold percentRow
    rw [getCellD_setCol_self, hx, hy]
    simp [PFloat.div, PFloat.mul, hy0]

/-- Witness for C2's amended claim at a concrete input:
50 over 200 yields 25 percent. -/
theorem calculate_percentage_row_semantics_witness :
    getCellD (percentRow "n" "d" "r"
      [("n", Cell.fl (PFloat.val 50)), ("d", Cell.fl (PFloat.val 200))]) "r" =
      Cell.fl (PFloat.val (50 / 200 * 100)) :=
  (calculate_percentage_row_semantics
    { cols := ["n", "d"],
      rows := [[("n", Cell.fl (PFloat.val 50)), ("d", Cell.fl (PFloat.val 200))]] }
    "n" "d" "r" _ (by decide)).2.2.2 50 200 (by decide) (by decide) (by decide)

/-! ### C9: calculate_percentage frame condition -/

/-- Claim C9: `calculate_percentage` only adds (or overwrites) the named
result column: the rows of the output are the rows of the input transformed
one-for-one; every column other than the result column keeps its value in
every row; the column set gains exactly the result column (at the end, if not
already present) and nothing else. -/
theorem calculate_percentage_frame (df : DF) (numc denc resc c : String)
    (hc : c ≠ resc) (r : Row) :
    (calculate_percentage df numc denc resc).rows =
      df.rows.map (percentRow numc denc resc) ∧
    (percentRow numc denc resc r).lookup c = r.lookup c ∧
    (percentRow numc denc resc r).map Prod.fst =
      (if resc ∈ r.map Prod.fst then r.map Prod.fst else r.map Prod.fst ++ [resc]) ∧
    (calculate_percentage df numc denc resc).cols =
      (if resc ∈ df.cols then df.cols else df.cols ++ [resc]) :=
  ⟨rfl, lookup_setCol_ne r resc c _ hc, keys_setCol r resc _, rfl⟩

/-- Witness for C9 at a concrete input: the numerator column is untouched. -/
theorem calculate_percentage_frame_witness :
    (percentRow "n" "d" "r"
      [("n", Cell.fl (PFloat.val 50)), ("d", Cell.fl (PFloat.val 200))]).lookup "n" =
      ([("n", Cell.fl (PFloat.val 50)), ("d", Cell.fl (PFloat.val 200))] : Row).lookup "n" :=
  (calculate_percentage_frame
    { cols := ["n", "d"],
      rows := [[("n", Cell.fl (PFloat.val 50)), ("d", Cell.fl (PFloat.val 200))]] }
    "n" "d" "r" "n" (by decide)
    [("n", Cell.fl (PFloat.val 50)), ("d", Cell.fl (PFloat.val 200))]).2.1

/-! ### C6: variable catalog lookup -/

/-- Claim C6: for every category absent from the catalog,
`get_variables_for_category` fails with the unknown-category error whose
message enumerates every valid category name (each category name occurs
inside the `Available:` listing embedded in the message); for every category
present, it returns the catalog's (metric name, provider code) pairs without
raising. -/
theorem get_variables_enumerates (c : String) :
    (c ∉ VARIABLES.map Prod.fst →
      get_variables_for_category c = Except.error (unknownCategoryMsg c)) ∧
    (∀ k ∈ VARIABLES.map Prod.fst,
      ∃ l1 l2, availableCategories.toList = l1 ++ k.toList ++ l2) ∧
    (∀ l, VARIABLES.lookup c = some l →
      get_variables_for_category c = Except.ok l) ∧
    (c ∈ VARIABLES.map Prod.fst → ∃ l, get_variables_for_category c = Except.ok l) := by
  refine ⟨?_, ?_, ?_, ?_⟩
  · intro h
    unfold get_variables_for_category
    rw [lookup_eq_none_of_not_mem_keys _ _ h]
  · intro k hk
    simp only [VARIABLES, List.map_cons, List.map_nil, List.mem_cons,
      List.not_mem_nil, or_false] at hk
    rcases hk with rfl | rfl | rfl | rfl | rfl | rfl | rfl
    · exact ⟨"".toList,
        ", age, race, education, income, housing, employment".toList, by decide⟩
    · exact ⟨"population, ".toList,
        ", race, education, income, housing, employment".toList, by decide⟩
    · exact ⟨"population, age, ".toList,
        ", education, income, housing, employment".toList, by decide⟩
    · exact ⟨"population, age, race, ".toList,
        ", income, housing, employment".toList, by decide⟩
    · exact ⟨"population, age, race, education, ".toList,
        ", housing, employment".toList, by decide⟩
    · exact ⟨"population, age, race, education, income, ".toList,
        ", employment".toList, by decide⟩
    · exact ⟨"population, age, race, education, income, housing, ".toList,
        "".toList, by decide⟩
  · intro l hl
    unfold get_variables_for_category
    rw [hl]
  · intro h
    obtain ⟨b, hb⟩ := lookup_isSome_of_mem_keys _ _ h
    refine ⟨b, ?_⟩
    unfold get_variables_for_category
    rw [hb]

/-- Witness for C6 at a concrete input: the unknown category "bogus". -/
theorem get_variables_enumerates_witness :
    get_variables_for_category "bogus" = Except.error (unknownCategoryMsg "bogus") :=
  (get_variables_enumerates "bogus").1 (by decide)

/-! ### Merge lemmas, C3 and C4 -/

theorem cellMatch_eq {a b : Cell} (h : cellMatch a b = true) : a = b := by
  unfold cellMatch at h
  simp only [Bool.and_eq_true, decide_eq_true_eq] at h
  exact h.2

theorem mergeRow_length (d : DF) (key : String) (gr : Row) :
    (mergeRow d key gr).length = max 1 (numMatches d key gr) := by
  unfold mergeRow numMatches
  cases h : d.rows.filter (fun dr => cellMatch (getCellD dr key) (getCellD gr key)) with
  | nil => simp [h]
  | cons a as =>
    simp only [h, List.isEmpty_cons, Bool.false_eq_true, if_false, List.length_map,
      List.length_cons]
    omega

theorem mergeRows_length (d : DF) (key : String) (l : List Row) :
    (mergeRows d key l).length = (l.map (fun gr => max 1 (numMatches d key gr))).sum := by
  induction l with
  | nil => rfl
  | cons gr rest ih => simp [mergeRows, mergeRow_length, ih]

theorem length_le_sum_max (f : Row → Nat) (l : List Row) :
    l.length ≤ (l.map (fun gr => max 1 (f gr))).sum := by
  induction l with
  | nil => simp
  | cons a as ih =>
    simp only [List.length_cons, List.map_cons, List.sum_cons]
    have h1 : 1 ≤ max 1 (f a) := Nat.le_max_left 1 (f a)
    omega

/-- Claim C4 as amended: for every geometry table and metric table, the left
join never drops a geometry row — each geometry row yields exactly
max(1, number of matching metric rows) output rows, so the output has at
least as many rows as the geometry table; with duplicate metric keys a
matching geometry row is duplicated once per match (so "exactly once
regardless of duplicates" fails, see the counterexample). -/
theorem merge_data_multiplicity (g d : DF) (key : String) :
    (merge_data g d key).rows.length =
      (g.rows.map (fun gr => max 1 (numMatches d key gr))).sum ∧
    g.rows.length ≤ (merge_data g d key).rows.length := by
  refine ⟨mergeRows_length d key g.rows, ?_⟩
  have h := mergeRows_length d key g.rows
  have h2 := length_le_sum_max (numMatches d key) g.rows
  exact h ▸ h2

/-- Counterexample to claim C4 as stated: one geometry row joined against a
metric table that repeats its GEOID twice appears twice in the output, not
exactly once. -/
theorem merge_data_duplicate_keys_duplicate_geometry :
    (merge_data { cols := ["GEOID"], rows := [[("GEOID", Cell.text "53")]] }
      { cols := ["GEOID", "v"],
        rows := [[("GEOID", Cell.text "53"), ("v", Cell.fl (PFloat.val 1))],
                 [("GEOID", Cell.text "53"), ("v", Cell.fl (PFloat.val 2))]] }
      "GEOID").rows.length = 2 ∧
    ({ cols := ["GEOID"], rows := [[("GEOID", Cell.text "53")]] } : DF).rows.length = 1 := by
  constructor
  · rfl
  · rfl

theorem matches_le_one (l : List Row) (key : String) (k : Cell)
    (h : (l.map (fun dr => getCellD dr key)).Nodup) :
    (l.filter (fun dr => cellMatch (getCellD dr key) k)).length ≤ 1 := by
  induction l with
  | nil => simp
  | cons a as ih =>
    rw [List.map_cons, List.nodup_cons] at h
    rw [List.filter_cons]
    by_cases ha : cellMatch (getCellD a key) k = true
    · rw [if_pos ha]
      have hak : getCellD a key = k := cellMatch_eq ha
      have hnil : as.filter (fun dr => cellMatch (getCellD dr key) k) = [] := by
        rw [List.filter_eq_nil_iff]
        intro b hb hbm
        apply h.1
        rw [hak, ← cellMatch_eq hbm]
        exact List.mem_map_of_mem _ hb
      rw [hnil]
      simp
    · rw [if_neg ha]
      exact ih h.2

theorem sum_const_one (l : List Row) (f : Row → Nat) (h : ∀ x ∈ l, f x = 1) :
    (l.map f).sum = l.length := by
  induction l with
  | nil => rfl
  | cons a as ih =>
    simp only [List.map_cons, List.sum_cons, List.length_cons,
      h a (List.mem_cons_self a as)]
    rw [ih (fun x hx => h x (List.mem_cons_of_mem a hx))]
    omega

theorem mergeRow_of_no_match (d : DF) (key : String) (gr : Row)
    (h : numMatches d key gr = 0) :
    mergeRow d key gr =
      [gr ++ (d.cols.filter (fun c => c != key)).map (fun c => (c, Cell.na))] := by
  unfold numMatches at h
  rw [List.length_eq_zero] at h
  simp [mergeRow, h]

theorem mem_mergeRows (d : DF) (key : String) (l : List Row) (gr x : Row)
    (hgr : gr ∈ l) (hx : x ∈ mergeRow d key gr) : x ∈ mergeRows d key l := by
  induction l with
  | nil => cases hgr
  | cons a as ih =>
    rcases List.mem_cons.mp hgr with rfl | hmem
    · exact List.mem_append_left _ hx
    · exact List.mem_append_right _ (ih hmem)

theorem mergeRow_shape (d : DF) (key : String) (gr x : Row)
    (hx : x ∈ mergeRow d key gr) : ∃ rest, x = gr ++ rest := by
  unfold mergeRow at hx
  by_cases h : (d.rows.filter
      fun dr => cellMatch (getCellD dr key) (getCellD gr key)).isEmpty
  · rw [if_pos h] at hx
    rw [List.mem_singleton] at hx
    exact ⟨_, hx⟩
  · rw [if_neg h] at hx
    obtain ⟨dr, _, hdr⟩ := List.mem_map.mp hx
    exact ⟨_, hdr.symm⟩

theorem mergeRows_shape (d : DF) (key : String) (l : List Row) (x : Row)
    (hx : x ∈ mergeRows d key l) : ∃ gr ∈ l, ∃ rest, x = gr ++ rest := by
  induction l with
  | nil => cases hx
  | cons a as ih =>
    rcases List.mem_append.mp hx with h | h
    · exact ⟨a, List.mem_cons_self a as, mergeRow_shape d key a x h⟩
    · obtain ⟨gr, hgr, hrest⟩ := ih h
      exact ⟨gr, List.mem_cons_of_mem a hgr, hrest⟩

/-- Claim C3: joining a geometry table of N rows against a metric table whose
join keys all occur among the geometry keys, each metric key occurring at
most once, yields exactly N output rows; a geometry row with no matching
metric key appears in the output extended with missing metric columns; and
every output row extends a geometry row (so metric rows without a matching
geometry contribute no rows of their own). -/
theorem merge_data_left_join_spec (g d : DF) (key : String)
    (_hsub : ∀ dr ∈ d.rows, getCellD dr key ∈ g.rows.map (fun gr => getCellD gr key))
    (hnodup : (d.rows.map (fun dr => getCellD dr key)).Nodup) :
    (merge_data g d key).rows.length = g.rows.length ∧
    (∀ gr ∈ g.rows, numMatches d key gr = 0 →
      gr ++ (d.cols.filter (fun c => c != key)).map (fun c => (c, Cell.na)) ∈
        (merge_data g d key).rows) ∧
    (∀ x ∈ (merge_data g d key).rows, ∃ gr ∈ g.rows, ∃ rest, x = gr ++ rest) := by
  refine ⟨?_, ?_, ?_⟩
  · show (mergeRows d key g.rows).length = g.rows.length
    rw [mergeRows_length]
    apply sum_const_one
    intro gr _
    have h1 : numMatches d key gr ≤ 1 :=
      matches_le_one d.rows key (getCellD gr key) hnodup
    omega
  · intro gr hgr h0
    have hrow := mergeRow_of_no_match d key gr h0
    apply mem_mergeRows d key g.rows gr _ hgr
    rw [hrow]
    exact List.mem_singleton_self _
  · exact fun x hx => mergeRows_shape d key g.rows x hx

/-- Witness for C3 at a concrete input: two geometry rows, one matching
metric row; the join returns exactly two rows. -/
theorem merge_data_left_join_spec_witness :
    (merge_data
      { cols := ["GEOID"],
        rows := [[("GEOID", Cell.text "53")], [("GEOID", Cell.text "41")]] }
      { cols := ["GEOID", "income"],
        rows := [[("GEOID", Cell.text "53"), ("income", Cell.fl (PFloat.val 75000))]] }
      "GEOID").rows.length =
    ({ cols := ["GEOID"],
        rows := [[("GEOID", Cell.text "53")], [("GEOID", Cell.text "41")]] } : DF).rows.length :=
  (merge_data_left_join_spec
    { cols := ["GEOID"],
      rows := [[("GEOID", Cell.text "53")], [("GEOID", Cell.text "41")]] }
    { cols := ["GEOID", "income"],
      rows := [[("GEOID", Cell.text "53"), ("income", Cell.fl (PFloat.val 75000))]] }
    "GEOID" (by decide) (by decide)).1

/-! ### Island County cleaning, C5 and C10 -/

theorem lookup_addIncomeCols_median (r : Row) :
    (addIncomeCols r).lookup "median_income" =
      some (Cell.fl (toNumericCoerce (getCellD r "B19013_001E"))) := by
  unfold addIncomeCols
  rw [lookup_setCol_ne _ _ _ _ (by decide), lookup_setCol_ne _ _ _ _ (by decide),
    lookup_setCol_ne _ _ _ _ (by decide), lookup_setCol_ne _ _ _ _ (by decide),
    lookup_setCol_self]

/-- Counterexample to claim C5 as stated: the derived-metric calculator
(`calculate_percentage`) does not treat the suppression sentinel as missing —
a numerator cell holding the sentinel -666666666 over a denominator of 200
yields the valid negative statistic -333333333 in the derived result, not a
missing value. -/
theorem calculator_passes_sentinel_through :
    calculate_percentage
      { cols := ["num", "den"],
        rows := [[("num", Cell.text "-666666666"), ("den", Cell.fl (PFloat.val 200))]] }
      "num" "den" "pct" =
      { cols := ["num", "den", "pct"],
        rows := [[("num", Cell.text "-666666666"), ("den", Cell.fl (PFloat.val 200)),
          ("pct", Cell.fl (PFloat.val ((-666666666 : ℚ) / 200 * 100)))]] } ∧
    ((-666666666 : ℚ) / 200 * 100) = -333333333 ∧
    Cell.fl (PFloat.val ((-666666666 : ℚ) / 200 * 100)) ≠ Cell.na ∧
    suppressionSentinel < 0 := by
  have hv : ((toNumericCoerce (Cell.text "-666666666")).div
      (toNumericCoerce (Cell.fl (PFloat.val 200)))).mul (PFloat.val 100) =
      PFloat.val ((-666666666 : ℚ) / 200 * 100) := by
    rw [show toNumericCoerce (Cell.text "-666666666") = PFloat.val (-666666666)
        from by decide,
      show toNumericCoerce (Cell.fl (PFloat.val 200)) = PFloat.val 200 from rfl,
      show (PFloat.val (-666666666 : ℚ)).div (PFloat.val 200) =
          PFloat.val ((-666666666 : ℚ) / 200) from by
        simp only [PFloat.div]
        rw [if_neg (by norm_num : ¬(200 : ℚ) = 0)]]
    rfl
  have hrow : percentRow "num" "den" "pct"
      [("num", Cell.text "-666666666"), ("den", Cell.fl (PFloat.val 200))] =
      [("num", Cell.text "-666666666"), ("den", Cell.fl (PFloat.val 200)),
       ("pct", Cell.fl (PFloat.val ((-666666666 : ℚ) / 200 * 100)))] := by
    unfold percentRow
    rw [show getCellD [("num", Cell.text "-666666666"),
        ("den", Cell.fl (PFloat.val 200))] "num" = Cell.text "-666666666" from rfl,
      show getCellD [("num", Cell.text "-666666666"),
        ("den", Cell.fl (PFloat.val 200))] "den" = Cell.fl (PFloat.val 200) from rfl,
      hv]
    rfl
  refine ⟨?_, by norm_num, ?_, by norm_num [suppressionSentinel]⟩
  · unfold calculate_percentage
    rw [List.map_cons, List.map_nil, hrow]
    simp
  · intro h
    cases h

/-- Claim C5 as amended: the downstream cleaning filter of the tract-income
script treats the suppression sentinel like missing data — every retained row
has a strictly positive numeric `median_income`, so a sentinel (or any
non-positive) value is always filtered out there; the derived-metric
calculator, by contrast, passes the sentinel through as an ordinary negative
number (see the counterexample). -/
theorem income_clean_retains_only_positive (rows : List Row) (r : Row)
    (hr : r ∈ fetch_income_data_clean rows) :
    cellPos (getCellD r "median_income") = true ∧
    ∀ q : ℚ, q ≤ 0 → getCellD r "median_income" ≠ Cell.fl (PFloat.val q) := by
  unfold fetch_income_data_clean at hr
  obtain ⟨r', hr', hsel⟩ := List.mem_map.mp hr
  have hp : cellPos (getCellD r' "median_income") = true :=
    (List.mem_filter.mp hr').2
  have hkeep : getCellD (selectIncomeCols r') "median_income" =
      getCellD r' "median_income" := rfl
  subst hsel
  refine ⟨by rw [hkeep]; exact hp, ?_⟩
  intro q hq hcell
  rw [hkeep] at hcell
  rw [hcell] at hp
  simp only [cellPos, decide_eq_true_eq] at hp
  exact absurd hp (not_lt.mpr hq)

/-- Witness for C5's amended claim at a concrete input: cleaning a table with
one valid tract and one sentinel-suppressed tract retains only the valid one,
whose income is positive. -/
theorem income_clean_retains_only_positive_witness :
    cellPos (getCellD
      [("tract_name", Cell.text "T1"), ("median_income", Cell.fl (PFloat.val 75000)),
       ("full_fips", Cell.text "53029970100"), ("tract_fips", Cell.text "970100"),
       ("county_fips", Cell.text "029"), ("state_fips", Cell.text "53")]
      "median_income") = true :=
  (income_clean_retains_only_positive
    [[("NAME", Cell.text "T1"), ("B19013_001E", Cell.text "75000"),
      ("state", Cell.text "53"), ("county", Cell.text "029"),
      ("tract", Cell.text "970100")],
     [("NAME", Cell.text "T2"), ("B19013_001E", Cell.text "-666666666"),
      ("state", Cell.text "53"), ("county", Cell.text "029"),
      ("tract", Cell.text "970200")]]
    [("tract_name", Cell.text "T1"), ("median_income", Cell.fl (PFloat.val 75000)),
     ("full_fips", Cell.text "53029970100"), ("tract_fips", Cell.text "970100"),
     ("county_fips", Cell.text "029"), ("state_fips", Cell.text "53")]
    (by decide)).1

/-- Claim C10: the tract-level income cleaning removes every row whose metric
value is non-positive, zero included — a row whose `B19013_001E` converts to
a numeric value of at most 0 contributes nothing to the cleaned output, even
though 0 is not a suppression sentinel. -/
theorem income_clean_drops_nonpositive (pre post : List Row) (r : Row) (q : ℚ)
    (hq : toNumericCoerce (getCellD r "B19013_001E") = PFloat.val q)
    (hle : q ≤ 0) :
    fetch_income_data_clean (pre ++ r :: post) =
      fetch_income_data_clean pre ++ fetch_income_data_clean post := by
  have hmed : getCellD (addIncomeCols r) "median_income" = Cell.fl (PFloat.val q) := by
    unfold getCellD
    rw [lookup_addIncomeCols_median, hq]
    rfl
  have h1 : (!isNA (getCellD (addIncomeCols r) "median_income")) = true := by
    rw [hmed]
    rfl
  have h2 : cellPos (getCellD (addIncomeCols r) "median_income") = false := by
    rw [hmed]
    simp only [cellPos]
    exact decide_eq_false (not_lt.mpr hle)
  unfold fetch_income_data_clean dropnaIncome filterPositive
  rw [List.map_append, List.map_cons, List.filter_append, List.filter_cons, h1]
  rw [if_pos rfl, List.filter_append, List.filter_cons, h2]
  simp only [Bool.false_eq_true, if_false, List.map_append]

/-- Witness for C10 at a concrete input: a tract row whose
`B19013_001E` is the string "0" is dropped by the cleaning step. -/
theorem income_clean_drops_nonpositive_witness :
    fetch_income_data_clean ([] ++ [("B19013_001E", Cell.text "0")] :: []) =
      fetch_income_data_clean [] ++ fetch_income_data_clean [] :=
  income_clean_drops_nonpositive [] [] [("B19013_001E", Cell.text "0")] 0
    (by decide) (by decide)

end Census
